import Mathlib

/-!
Verification development for the site-evaluation-tools scanner
(`src/python/alt-text-scan.py`): shallow embedding of the sitemap resolver,
fallback crawler, page image extractor, image aggregator and suggestion
engine, together with theorems about their behaviour.

Network I/O (`requests`), DOM parsing (`BeautifulSoup`) and the standard
`urllib.parse` helpers are modelled: fetch outcomes are supplied by
environment records, and `urlparse`/`urlunparse`/`urljoin` are implemented
for the `scheme://netloc/path;params?query#fragment` shape the scanner
manipulates.
-/

/- ## String helpers (Python `in`, `endswith`, … on `str`) -/

/-- Does `pat` occur at the start of `l`? -/
def startsWithL (pat l : List Char) : Bool :=
  match pat, l with
  | [], _ => true
  | _ :: _, [] => false
  | p :: ps, c :: cs => p == c && startsWithL ps cs

/-- Does `pat` occur contiguously anywhere in `l`? -/
def infixOfL (pat l : List Char) : Bool :=
  match l with
  | [] => startsWithL pat []
  | _ :: cs => startsWithL pat l || infixOfL pat cs

/-- Python `pat in s` on strings: substring test. -/
def strContains (s pat : String) : Bool :=
  infixOfL pat.data s.data

/-- Python `s.endswith(suffixStr)`. -/
def strEndsWith (s suffixStr : String) : Bool :=
  startsWithL suffixStr.data.reverse s.data.reverse

/-- Python `c.lower()` for one character (ASCII model). -/
def asciiLowerChar (c : Char) : Char :=
  if c.isUpper then Char.ofNat (c.toNat + 32) else c

/-- Python `s.lower()` (ASCII model). -/
def strLower (s : String) : String := String.mk (s.data.map asciiLowerChar)

/-- The whitespace characters Python `str.strip()` removes. -/
def isSpaceChar (c : Char) : Bool :=
  c == ' ' || c == '\t' || c == '\n' || c == '\r' || c == '\x0b' || c == '\x0c'

/-- Python `s.strip()`. -/
def strStrip (s : String) : String :=
  String.mk (((s.data.dropWhile isSpaceChar).reverse.dropWhile isSpaceChar).reverse)

/- ## Model of `urllib.parse` for `scheme://netloc/path;params?query#fragment` -/

/-- Result of `urllib.parse.urlparse` (the six-tuple of components). -/
structure UrlParts where
  scheme : String
  netlocPart : String
  path : String
  params : String
  query : String
  fragment : String
deriving DecidableEq

/-- Split a character list at the first occurrence of `sep`, dropping the
separator; `none` when `sep` does not occur. -/
def splitOnceL (sep : List Char) : List Char → Option (List Char × List Char)
  | [] => if startsWithL sep [] then some ([], []) else none
  | c :: cs =>
    if startsWithL sep (c :: cs) then some ([], (c :: cs).drop sep.length)
    else
      match splitOnceL sep cs with
      | some (p, r) => some (c :: p, r)
      | none => none

/-- Split `s` at the first occurrence of `sep`, when present. -/
def splitOnce (s sep : String) : Option (String × String) :=
  match splitOnceL sep.data s.data with
  | some (p, r) => some (String.mk p, String.mk r)
  | none => none

/-- Model of `urllib.parse.urlparse` for absolute `scheme://…` URLs and
scheme-less relative references.  The fragment is split at the first `#`,
the query at the first `?`, and params at the first `;` (Python takes
params from the last path segment only; the recombined `path;params`
string is identical either way). -/
def urlparse (url : String) : UrlParts :=
  let sr := match splitOnce url "://" with
    | some (s, r) => (s, r)
    | none => ("", url)
  let scheme := sr.1
  let rest := sr.2
  let nt :=
    if scheme = "" then ("", rest)
    else (String.mk (rest.data.takeWhile fun c => !(c == '/' || c == '?' || c == '#')),
          String.mk (rest.data.dropWhile fun c => !(c == '/' || c == '?' || c == '#')))
  let tail := nt.2
  let bf := match splitOnce tail "#" with
    | some (b, f) => (b, f)
    | none => (tail, "")
  let bq := match splitOnce bf.1 "?" with
    | some (b, q) => (b, q)
    | none => (bf.1, "")
  let pp := match splitOnce bq.1 ";" with
    | some (p, pa) => (p, pa)
    | none => (bq.1, "")
  ⟨scheme, nt.1, pp.1, pp.2, bq.2, bf.2⟩

/-- `urlparse(url).netloc`. -/
def netlocOf (url : String) : String := (urlparse url).netlocPart

/-- `urlparse(url).scheme`. -/
def schemeOf (url : String) : String := (urlparse url).scheme

/-- Model of `urllib.parse.urlunparse(('', '', path, params, query, fragment))`:
reassembles a relative reference with empty scheme and netloc. -/
def urlunparse_rel (p : UrlParts) : String :=
  p.path ++ (if p.params = "" then "" else ";" ++ p.params)
    ++ (if p.query = "" then "" else "?" ++ p.query)
    ++ (if p.fragment = "" then "" else "#" ++ p.fragment)

/-- Model of `urllib.parse.urljoin` covering the cases the scanner exercises:
absolute references are returned unchanged, root-relative references are
resolved against the base's origin, and other relative references are
resolved against the site root (path details beyond the origin are not
needed by the properties below). -/
def urljoin (base href : String) : String :=
  if href = "" then base
  else match splitOnce href "://" with
    | some _ => href
    | none =>
      if startsWithL "/".data href.data then schemeOf base ++ "://" ++ netlocOf base ++ href
      else schemeOf base ++ "://" ++ netlocOf base ++ "/" ++ href

/-- `get_relative_url` (alt-text-scan.py lines 313-317): strip scheme and
netloc from `url` when its netloc equals the base domain's netloc,
reassembling path, params, query and fragment; otherwise return `url`. -/
def get_relative_url (url base_domain : String) : String :=
  let p := urlparse url
  if p.netlocPart = (urlparse base_domain).netlocPart then urlunparse_rel p
  else url

/- ## Suggestion engine (`text_analysis`, `analyze_alt_text` row loop) -/

/-- The `\w` character class of `text_analysis`'s word regex (ASCII model). -/
def isWordChar (c : Char) : Bool := c.isAlphanum || c == '_'

/-- Count maximal runs of word characters (`re.findall(r'\b\w+\b', …)` length);
`inWord` records whether the previous character was a word character. -/
def countRuns (l : List Char) (inWord : Bool) : Nat :=
  match l with
  | [] => 0
  | c :: cs =>
    if isWordChar c then (if inWord then 0 else 1) + countRuns cs true
    else countRuns cs false

/-- Number of words of `text_analysis`. -/
def countWords (s : String) : Nat := countRuns s.data false

/-- Split a character list at every `.`, `!` or `?` (`re.split(r'[.!?]', …)`);
`cur` is the current piece, accumulated in reverse. -/
def sentencePieces (l : List Char) (cur : List Char) : List (List Char) :=
  match l with
  | [] => [cur.reverse]
  | c :: cs =>
    if c == '.' || c == '!' || c == '?' then cur.reverse :: sentencePieces cs []
    else sentencePieces cs (c :: cur)

/-- Number of non-blank sentences of `text_analysis`. -/
def countSentences (s : String) : Nat :=
  (sentencePieces s.data []).countP (fun p => p.any (fun c => !c.isWhitespace))

/-- `text_analysis` (alt-text-scan.py lines 41-48): `(num_words, num_sentences)`,
`(0, 0)` for a missing or blank string. -/
def text_analysis (alt_text : String) : Nat × Nat :=
  if strStrip alt_text = "" then (0, 0)
  else (countWords alt_text, countSentences alt_text)

def wcagMsg : String := "WCAG 1.1.1 Failure: Alt text is empty or invalid."
def sizeMsg : String := "Consider reducing the image size for a better user experience."
def suspiciousMsg : String :=
  "Avoid phrases like \x27image of\x27, \x27graphic of\x27, or \x27todo\x27 in alt text."
def meaninglessMsg : String := "Alt text appears meaningless. Replace it with a descriptive value."
def tooShortMsg : String := "Alt text seems too short. Provide more context."
def tooLongMsg : String := "Alt text may be too long. Consider shortening."
def simplifyMsg : String := "Consider simplifying the text."
def titleMsg : String :=
  "Consider removing the title text. Often, it reduces usability for screen readers."
def passMsg : String := "Alt-text passes automated tests, but does it make sense to a person?"

def wcag_failure_values : List String := ["null", "tbd", "none", "alt text", ""]

def suspicious_words : List String :=
  ["image of", "graphic of", "picture of", "photo of", "placeholder", "spacer", "tbd", "todo"]

def meaningless_alt : List String :=
  ["alt", "chart", "decorative", "image", "graphic", "photo", "placeholder image",
   "spacer", "tbd", "todo", "undefined"]

/-- One iteration of the row loop of `analyze_alt_text` (alt-text-scan.py
lines 568-603): the per-row suggestion list, built in source order.  A `None`
alt text or title is replaced by `""`; the words-per-sentence test
`words / max(sentences, 1) > 20` is the exact rational comparison
`20 * max sentences 1 < words`. -/
def analyze_row (alt_opt title_opt : Option String) (size_kb : Nat) : List String :=
  let alt_text := alt_opt.getD ""
  let title_text := title_opt.getD ""
  let s1 := if strStrip alt_text = "" ∨ wcag_failure_values.contains (strLower (strStrip alt_text))
    then [wcagMsg] else []
  let s2 := s1 ++ (if 250 < size_kb then [sizeMsg] else [])
  let s3 := s2 ++ (if suspicious_words.any (fun w => strContains (strLower alt_text) w)
    then [suspiciousMsg] else [])
  let s4 := s3 ++ (if meaningless_alt.contains (strLower alt_text) then [meaninglessMsg] else [])
  let ws := text_analysis alt_text
  let s5 := s4 ++ (if alt_text.length < 25 then [tooShortMsg] else [])
  let s6 := s5 ++ (if 250 < alt_text.length then [tooLongMsg] else [])
  let s7 := s6 ++ (if 20 * max ws.2 1 < ws.1 then [simplifyMsg] else [])
  let s8 := s7 ++ (if strStrip title_text ≠ "" then [titleMsg] else [])
  if s8 = [] then [passMsg] else s8

/- ## Sitemap resolver (`parse_sitemap`, alt-text-scan.py lines 184-251) -/

/-- Body of a sitemap HTTP response, as the scanner probes it: the two byte
substring sniffs, whether `ET.fromstring` succeeds, the `<sitemap><loc>` and
`<url><loc>` text values (carried already `.strip()`ped and non-empty, as the
code checks `loc.text` truthiness before use), and whether the body starts
with an `<?xml` declaration (never inspected by the code). -/
structure SitemapContent where
  hasIndexTag : Bool
  hasUrlsetTag : Bool
  xmlOk : Bool
  children : List String
  locs : List String
  leadingXmlDecl : Bool

/-- Outcome of `requests.get` on a sitemap URL: a raised request exception,
or a response with a status code and body. -/
inductive SitemapFetch
  | err
  | resp (status : Nat) (content : SitemapContent)

/-- Network environment for sitemap resolution: the fetch outcome per URL and
the outcome of the `is_html_url` probe (itself a wrapper around its own
HEAD/GET request that returns `False` on any error). -/
structure SitemapEnv where
  fetch : String → SitemapFetch
  isHtml : String → Bool

mutual

/-- `parse_sitemap` (alt-text-scan.py lines 184-251).  `urls` starts as a
fresh empty set and the guard `depth <= 0 or len(urls) > 50_000` is tested on
it immediately, exactly as in the source.  A 403 or other non-200 status, a
raised request exception, a body that is neither a sitemap index nor a
urlset, or an `ET.ParseError` (`xmlOk = false`) all yield the empty set. -/
def parse_sitemap (env : SitemapEnv) (url : String) (depth : Nat) : Finset String :=
  let urls : Finset String := ∅
  if depth = 0 ∨ 50000 < urls.card then urls
  else
    match depth with
    | 0 => urls
    | d + 1 =>
      match env.fetch url with
      | .err => ∅
      | .resp status c =>
        if status = 403 then ∅
        else if status ≠ 200 then ∅
        else if c.hasIndexTag then
          if c.xmlOk then parseChildren env d c.children ∅ else ∅
        else if c.hasUrlsetTag then
          if c.xmlOk then (c.locs.filter env.isHtml).toFinset else ∅
        else ∅
termination_by (depth, 0)

/-- The `urls.update(parse_sitemap(...))` loop over the `<sitemap>` entries of
a sitemap index, with the accumulated set threaded through. -/
def parseChildren (env : SitemapEnv) (d : Nat) (children : List String)
    (acc : Finset String) : Finset String :=
  match children with
  | [] => acc
  | ch :: rest => parseChildren env d rest (acc ∪ parse_sitemap env ch d)
termination_by (d, children.length + 1)

end

mutual

/-- `parse_sitemap` with the dead `len(urls) > 50_000` disjunct removed from
the guard, used to show the cap check has no effect on the result. -/
def parse_sitemap_noCap (env : SitemapEnv) (url : String) (depth : Nat) : Finset String :=
  if depth = 0 then ∅
  else
    match depth with
    | 0 => ∅
    | d + 1 =>
      match env.fetch url with
      | .err => ∅
      | .resp status c =>
        if status = 403 then ∅
        else if status ≠ 200 then ∅
        else if c.hasIndexTag then
          if c.xmlOk then parseChildrenNoCap env d c.children ∅ else ∅
        else if c.hasUrlsetTag then
          if c.xmlOk then (c.locs.filter env.isHtml).toFinset else ∅
        else ∅
termination_by (depth, 0)

/-- Child loop of `parse_sitemap_noCap`. -/
def parseChildrenNoCap (env : SitemapEnv) (d : Nat) (children : List String)
    (acc : Finset String) : Finset String :=
  match children with
  | [] => acc
  | ch :: rest => parseChildrenNoCap env d rest (acc ∪ parse_sitemap_noCap env ch d)
termination_by (d, children.length + 1)

end

/-- URL naming scheme for the over-cap sitemap environment: 50,001 pairwise
distinct page URLs. -/
def capUrl (i : Nat) : String := String.mk (List.replicate i 'a')

/-- The 50,001 `<loc>` values of the oversized urlset. -/
def capLocs : List String := (List.range 50001).map capUrl

/-- Sitemap environment with an index whose first child is a urlset of 50,001
URLs and whose second child is a urlset with one further URL `"z"`. -/
def capEnv : SitemapEnv where
  fetch := fun u =>
    if u = "https://cap.example/sitemap.xml" then
      .resp 200 ⟨true, false, true, ["https://cap.example/big.xml", "https://cap.example/small.xml"], [], true⟩
    else if u = "https://cap.example/big.xml" then
      .resp 200 ⟨false, true, true, [], capLocs, true⟩
    else if u = "https://cap.example/small.xml" then
      .resp 200 ⟨false, true, true, [], ["z"], true⟩
    else .err
  isHtml := fun _ => true

/- ## Fallback crawler (`crawl_site`, alt-text-scan.py lines 254-310) -/

/-- Outcome of `requests.get` on a page during the fallback crawl: a raised
exception, or a response with a `Content-Type` header and the `href` values
of the page's `<a>` tags. -/
inductive CrawlFetch
  | failure
  | resp (contentType : String) (hrefs : List String)

/-- The link extensions skipped by the fallback crawler (lines 289-292). -/
def badLinkExt : List String :=
  [".pdf", ".doc", ".docx", ".xls", ".xlsx", ".ppt", ".pptx", ".zip", ".rar",
   ".jpg", ".jpeg", ".png", ".gif", ".svg", ".tiff", ".mp4", ".mp3", ".avi", ".mov"]

/-- State of one `crawl_site` call: `visited_urls` and `crawled_urls` are
Python sets (modelled as duplicate-free lists via `List.insert`),
`urls_to_visit` a FIFO list, plus the consecutive-error counter and the
current throttle delay. -/
structure CrawlState where
  visited : List String
  urlsToVisit : List String
  crawledUrls : List String
  consecutiveErrors : Nat
  throttle : Nat

/-- The link loop of `crawl_site` (lines 284-297): join each `href` against
the page URL, drop links whose path ends in a skipped extension, and keep
links whose netloc equals the seed's netloc and that are not yet visited. -/
def linkTargets (pageUrl seed : String) (visited : List String)
    (hrefs : List String) : List String :=
  (hrefs.map (fun h => urljoin pageUrl h)).filter (fun link =>
    (!(badLinkExt.any (fun e => strEndsWith (strLower (urlparse link).path) e)))
    && decide (netlocOf link = netlocOf seed) && decide (¬ link ∈ visited))

/-- The `while` loop of `crawl_site` (lines 265-307), one constructor of fuel
per iteration.  The loop exits when the frontier is empty or
`len(crawled_urls) >= max_pages`; a popped URL already visited is skipped;
a fetch failure increments the consecutive-error counter and, once it
exceeds 5, raises the throttle by 1 capped at 10; a non-HTML `Content-Type`
is skipped without touching the counter; a successful HTML fetch records the
page, enqueues its same-netloc links and resets the counter to 0. -/
def crawl_loop (env : String → CrawlFetch) (seed : String) (maxPages : Nat) :
    Nat → CrawlState → CrawlState
  | 0, s => s
  | fuel + 1, s =>
    match s.urlsToVisit with
    | [] => s
    | url :: rest =>
      if ¬ s.crawledUrls.length < maxPages then s
      else if url ∈ s.visited then
        crawl_loop env seed maxPages fuel { s with urlsToVisit := rest }
      else
        let s1 : CrawlState :=
          { s with urlsToVisit := rest, visited := s.visited.insert url }
        match env url with
        | .failure =>
          let ce := s1.consecutiveErrors + 1
          crawl_loop env seed maxPages fuel
            { s1 with consecutiveErrors := ce,
                      throttle := if 5 < ce then min (s1.throttle + 1) 10 else s1.throttle }
        | .resp ct hrefs =>
          if ¬ strContains (strLower ct) "text/html" then
            crawl_loop env seed maxPages fuel s1
          else
            crawl_loop env seed maxPages fuel
              { s1 with crawledUrls := s1.crawledUrls.insert url,
                        urlsToVisit := rest ++ linkTargets url seed s1.visited hrefs,
                        consecutiveErrors := 0 }

/-- Initial state of `crawl_site(start_url, …)`: empty visited and crawled
sets, the frontier seeded with the start URL, counter 0 and the given
initial throttle. -/
def initCrawl (seed : String) (throttle : Nat) : CrawlState :=
  ⟨[], [seed], [], 0, throttle⟩

/-- Crawl environment for the scheme-change run: the `https` seed page links
to an `http` URL on the same host, which serves HTML. -/
def mixedSchemeEnv : String → CrawlFetch := fun u =>
  if u = "https://example.com/" then .resp "text/html" ["http://example.com/plain"]
  else if u = "http://example.com/plain" then .resp "text/html" []
  else .failure

/-- Crawl environment for the throttle runs: the seed page links to seven
same-netloc pages, every one of which fails to fetch. -/
def throttleEnv : String → CrawlFetch := fun u =>
  if u = "https://example.com/" then
    .resp "text/html"
      ["https://example.com/p1", "https://example.com/p2", "https://example.com/p3",
       "https://example.com/p4", "https://example.com/p5", "https://example.com/p6",
       "https://example.com/p7"]
  else .failure

/- ## Page image extractor and aggregator
(`is_image_visible`, `is_valid_image`, `crawl_page`, `process_image`,
`get_images`, alt-text-scan.py lines 320-540) -/

/-- Attributes of an `<img>` element's immediate parent that
`is_image_visible` inspects. -/
structure ParentAttrs where
  style : String
  ariaHidden : Option String
  hiddenAttr : Bool

/-- An `<img>` element as the scanner reads it: its attributes, its immediate
parent (`find_parent()`, `none` for a detached element), and the document
lookup `find(id=…)` under the parent resolving an `aria-describedby`
reference to that element's stripped text. -/
structure ImgNode where
  src : Option String
  alt : Option String
  title : Option String
  longdesc : Option String
  ariaLabel : Option String
  ariaDescribedby : Option String
  style : String
  ariaHidden : Option String
  hiddenAttr : Bool
  parent : Option ParentAttrs
  findById : String → Option String

/-- `is_image_visible` (alt-text-scan.py lines 320-342): concatenate the
element's and parent's inline styles and look for the literal lower-case
substrings `'display: none'`, `'visibility: hidden'`, `'opacity: 0'`;
then check `aria-hidden == 'true'` and the HTML `hidden` attribute on the
element and its parent. -/
def is_image_visible (img : ImgNode) : Bool :=
  let style := img.style ++ (match img.parent with | some p => p.style | none => "")
  if ["display: none", "visibility: hidden", "opacity: 0"].any
      (fun h => strContains (strLower style) h) then false
  else if img.ariaHidden == some "true"
      || (match img.parent with | some p => p.ariaHidden == some "true" | none => false) then
    false
  else if img.hiddenAttr
      || (match img.parent with | some p => p.hiddenAttr | none => false) then
    false
  else true

/-- The accepted image extensions (alt-text-scan.py line 39). -/
def IMAGE_EXTENSIONS : List String :=
  [".jpg", ".jpeg", ".png", ".gif", ".svg", ".tiff", ".avif", ".webp"]

/-- `is_valid_image` (alt-text-scan.py lines 63-71): the URL's path must end
in an accepted image extension (lower-cased). -/
def is_valid_image (url : String) : Bool :=
  if url = "" then false
  else IMAGE_EXTENSIONS.any (fun e => strEndsWith (strLower (urlparse url).path) e)

/-- One aggregated image record of `images_data` (the per-URL `defaultdict`
value of `get_images`, alt-text-scan.py lines 448-454 and 530-540). -/
structure ImgData where
  count : Nat
  alt_text : Option String
  title : Option String
  longdesc : Option String
  aria_label : Option String
  aria_describedby : Option String
  source_urls : List String
  size_kb : Nat

/-- The `defaultdict` initial record. -/
def emptyImgData : ImgData := ⟨0, none, none, none, none, none, [], 0⟩

/-- The whole `images_data` mapping, keyed by absolute image URL with the
defaultdict fallback. -/
def ImagesData : Type := String → ImgData

/-- Fresh `images_data`. -/
def emptyImagesData : ImagesData := fun _ => emptyImgData

/-- Resolution of `aria-describedby` inside `process_image` (lines 520-525):
look up the referenced id under the image's parent and take that element's
stripped text when found. -/
def resolveDescribed (img : ImgNode) : Option String :=
  match img.ariaDescribedby with
  | none => none
  | some idref => img.findById idref

/-- `process_image` (alt-text-scan.py lines 503-540): bump the record's count,
overwrite the metadata fields with this sighting's values, record the probed
size, and append the page's relative URL to `source_urls` unless already
present.  `size` is the outcome of the `requests.head` content-length probe
(0 on failure), supplied by the environment. -/
def process_image (img_url : String) (img : ImgNode) (page_url domain : String)
    (size : Nat) (data : ImagesData) : ImagesData :=
  let source_url := get_relative_url page_url domain
  let prev := data img_url
  let rec1 : ImgData :=
    { prev with
      count := prev.count + 1,
      alt_text := img.alt,
      title := img.title,
      longdesc := img.longdesc,
      aria_label := img.ariaLabel,
      aria_describedby := resolveDescribed img,
      size_kb := size }
  let rec2 : ImgData :=
    if source_url ∈ rec1.source_urls then rec1
    else { rec1 with source_urls := rec1.source_urls ++ [source_url] }
  fun k => if k = img_url then rec2 else data k

/-- Outcome of `requests.get` on a page in `crawl_page`: a raised
`Timeout`/`RequestException`, or a response with a status code and the
page's `<img>` elements. -/
inductive PageFetch
  | reqError
  | resp (status : Nat) (imgs : List ImgNode)

/-- Network environment for `crawl_page`/`get_images`: the `is_html_url`
probe outcome, the page fetch outcome, and the per-image `requests.head`
size probe in KB (0 on failure). -/
structure PageEnv where
  isHtml : String → Bool
  fetch : String → PageFetch
  imgSizeKb : String → Nat

/-- The `for img in img_tags` loop of `crawl_page` (lines 409-426): skip
elements with a falsy `src`, skip hidden images, resolve the source against
the page URL, skip duplicates already seen on this page, and process images
with an accepted extension. -/
def pageImages (env : PageEnv) (page_url domain : String) :
    List ImgNode → List String → ImagesData → ImagesData
  | [], _, data => data
  | img :: rest, seen, data =>
    match img.src with
    | none => pageImages env page_url domain rest seen data
    | some src =>
      if src = "" then pageImages env page_url domain rest seen data
      else if ¬ is_image_visible img then pageImages env page_url domain rest seen data
      else
        let img_url := urljoin page_url src
        if img_url ∈ seen then pageImages env page_url domain rest seen data
        else if is_valid_image img_url then
          pageImages env page_url domain rest (img_url :: seen)
            (process_image img_url img page_url domain (env.imgSizeKb img_url) data)
        else pageImages env page_url domain rest (img_url :: seen) data

/-- The value `crawl_page` returns: an integer error count on most paths, but
the literal empty list `[]` on the `Timeout` and `RequestException`
branches (lines 390-395). -/
inductive CrawlPageRet
  | count (n : Nat)
  | emptyList
deriving DecidableEq

/-- `crawl_page` (alt-text-scan.py lines 370-432).  A URL failing the
`is_html_url` probe returns the unchanged counter; a raised `Timeout` or
`RequestException` — including the `HTTPError` that `raise_for_status()`
raises for a status of 400 or above — returns `[]`; any other non-200
status returns counter + 1; a successful parse processes the page's images
and returns 0.  The connectivity pause loop is not modelled (it blocks
without changing state). -/
def crawl_page (env : PageEnv) (url domain : String) (consecutive_errors : Nat)
    (data : ImagesData) : CrawlPageRet × ImagesData :=
  if ¬ env.isHtml url then (.count consecutive_errors, data)
  else
    match env.fetch url with
    | .reqError => (.emptyList, data)
    | .resp status imgs =>
      if 400 ≤ status then (.emptyList, data)
      else if status ≠ 200 then (.count (consecutive_errors + 1), data)
      else (.count 0, pageImages env url domain imgs [] data)

/-- The `for url in sampled_urls` loop of `get_images` (lines 479-483): feed
`crawl_page`'s return value into `consecutive_errors` and compare it with 5.
When `crawl_page` returned the list `[]`, the comparison `[] > 5` raises
`TypeError`, modelled as an `Except.error` that aborts the remaining URLs. -/
def get_images_loop (env : PageEnv) (domain : String) :
    List String → Nat → Nat → ImagesData → Except String (Nat × Nat × ImagesData)
  | [], ce, throttle, data => .ok (ce, throttle, data)
  | url :: rest, ce, throttle, data =>
    match crawl_page env url domain ce data with
    | (.count n, data1) =>
      if 5 < n then get_images_loop env domain rest n (min (throttle + 1) 10) data1
      else get_images_loop env domain rest n throttle data1
    | (.emptyList, _) =>
      .error "TypeError: unsupported comparison between instances of list and int"

/-- One image sighting, bundling the arguments of a `process_image` call. -/
structure Sighting where
  img_url : String
  img : ImgNode
  page_url : String
  domain : String
  size : Nat

/-- Folding a run's sightings into `images_data`. -/
def aggregate (sightings : List Sighting) (data : ImagesData) : ImagesData :=
  sightings.foldl
    (fun d s => process_image s.img_url s.img s.page_url s.domain s.size d) data

/-- Environment for the timeout run: every URL passes the `is_html_url`
probe, the first page's fetch raises, the second fetches cleanly with no
images. -/
def timeoutEnv : PageEnv where
  isHtml := fun _ => true
  fetch := fun u =>
    if u = "https://example.com/a" then .reqError else .resp 200 []
  imgSizeKb := fun _ => 0

/-- An image styled `display:none` — written without the space that
`is_image_visible`'s substring patterns require. -/
def noSpaceHiddenImg : ImgNode where
  src := some "/pic.png"
  alt := some "decoration"
  title := none
  longdesc := none
  ariaLabel := none
  ariaDescribedby := none
  style := "display:none"
  ariaHidden := none
  hiddenAttr := false
  parent := none
  findById := fun _ => none

/-- Environment for the hidden-image run: size probes all return 0. -/
def hiddenImgEnv : PageEnv where
  isHtml := fun _ => true
  fetch := fun _ => .resp 200 [noSpaceHiddenImg]
  imgSizeKb := fun _ => 0

/-- A self-referential sitemap index: the document at `selfSitemapUrl` is a
well-formed sitemap index whose only `<sitemap><loc>` entry is itself. -/
def selfSitemapUrl : String := "https://self.example/sitemap.xml"

/-- Environment serving the self-referential sitemap index. -/
def selfEnv : SitemapEnv where
  fetch := fun u =>
    if u = selfSitemapUrl then .resp 200 ⟨true, false, true, [selfSitemapUrl], [], true⟩
    else .err
  isHtml := fun _ => true

/-- A response body with no `<urlset>`, no `<sitemapindex>` and no leading
`<?xml` declaration. -/
def plainBody : SitemapContent := ⟨false, false, true, [], [], false⟩

/-- Environment for the error-path runs: one URL answers 403, every other
URL answers 200 with a non-XML body. -/
def errEnv : SitemapEnv where
  fetch := fun u =>
    if u = "https://err.example/sitemap.xml" then .resp 403 plainBody
    else .resp 200 plainBody
  isHtml := fun _ => true

/-- An image styled with the spaced form `display: none` that the visibility
check does match. -/
def spacedHiddenImg : ImgNode where
  src := some "/pic.png"
  alt := some "decoration"
  title := none
  longdesc := none
  ariaLabel := none
  ariaDescribedby := none
  style := "display: none"
  ariaHidden := none
  hiddenAttr := false
  parent := none
  findById := fun _ => none

/- ## Theorems -/

/- ### C1 — empty/invalid alt text and the content-quality checks -/

/-- C1 counterexample: for `alt_text = ""` the suggestion output is the WCAG
failure message followed by the "too short" content-quality suggestion, so a
length suggestion does appear and the checks of rules 2-4 are not skipped. -/
theorem empty_alt_gets_length_suggestion :
    analyze_row (some "") none 0 = [wcagMsg, tooShortMsg] ∧
    tooShortMsg ∈ analyze_row (some "") none 0 := by
  constructor <;> decide

/-- C1 (amended): a blank or invalid alt text always yields the WCAG 1.1.1
failure message, but the content-quality checks of rules 2-4 are still
evaluated rather than skipped; in particular for `alt_text = ""` the output
is exactly the WCAG message followed by the "too short" suggestion. -/
theorem invalid_alt_emits_wcag_but_checks_still_run :
    (∀ (alt : String) (title : Option String) (size : Nat),
      (strStrip alt = "" ∨ wcag_failure_values.contains (strLower (strStrip alt)) = true) →
      wcagMsg ∈ analyze_row (some alt) title size) ∧
    analyze_row (some "") none 0 = [wcagMsg, tooShortMsg] := by
  constructor
  · intro alt title size h
    simp only [analyze_row, Option.getD_some]
    rw [if_pos h]
    simp only [List.singleton_append, List.cons_append]
    split
    · simp_all
    · exact List.mem_cons_self _ _
  · decide

/-- C1 witness: the amended theorem applied at the empty alt text. -/
theorem invalid_alt_emits_wcag_but_checks_still_run_witness :
    wcagMsg ∈ analyze_row (some "") none 0 :=
  invalid_alt_emits_wcag_but_checks_still_run.1 "" none 0 (Or.inl (by decide))

/- ### C2 — timeout handling in `crawl_page` and its caller -/

/-- C2: a page whose `is_html_url` probe succeeds but whose GET raises a
timeout makes `crawl_page` return the list `[]` instead of
`consecutive_errors + 1`; the caller's `consecutive_errors > 5` comparison
then raises `TypeError`, aborting the remaining URLs instead of continuing. -/
theorem timeout_returns_list_and_crashes_run :
    (crawl_page timeoutEnv "https://example.com/a" "https://example.com" 0
        emptyImagesData).1 = CrawlPageRet.emptyList ∧
    (crawl_page timeoutEnv "https://example.com/a" "https://example.com" 0
        emptyImagesData).1 ≠ CrawlPageRet.count 1 ∧
    get_images_loop timeoutEnv "https://example.com"
        ["https://example.com/a", "https://example.com/b"] 0 0 emptyImagesData
      = .error "TypeError: unsupported comparison between instances of list and int" :=
  ⟨rfl, by decide, rfl⟩

/- ### C10 — relative source URLs and the fragment -/

/-- C10 counterexample: for a same-host page URL carrying a fragment, the
stored relative URL keeps the fragment rather than stripping it. -/
theorem relative_url_keeps_fragment :
    get_relative_url "https://example.com/page#sec" "https://example.com" = "/page#sec" ∧
    get_relative_url "https://example.com/page#sec" "https://example.com"
      ≠ urlunparse_rel { urlparse "https://example.com/page#sec" with fragment := "" } := by
  constructor <;> decide

/-- C10 (amended): when the page URL's netloc equals the base domain's
netloc, `get_relative_url` removes the scheme and host and reassembles path,
params, query and fragment; a non-empty fragment is preserved at the end of
the stored value, not stripped. -/
theorem relative_url_strips_origin_keeps_fragment (url base : String)
    (h : (urlparse url).netlocPart = (urlparse base).netlocPart) :
    get_relative_url url base = urlunparse_rel (urlparse url) ∧
    ((urlparse url).fragment ≠ "" →
      ∃ s, get_relative_url url base = s ++ "#" ++ (urlparse url).fragment) := by
  have h1 : get_relative_url url base = urlunparse_rel (urlparse url) := by
    simp only [get_relative_url]
    rw [if_pos h]
  refine ⟨h1, fun hf => ?_⟩
  refine ⟨(urlparse url).path
    ++ (if (urlparse url).params = "" then "" else ";" ++ (urlparse url).params)
    ++ (if (urlparse url).query = "" then "" else "?" ++ (urlparse url).query), ?_⟩
  rw [h1]
  simp only [urlunparse_rel]
  rw [if_neg hf]
  rw [← String.append_assoc]

/-- C10 witness: the amended theorem at a concrete fragment-carrying URL. -/
theorem relative_url_strips_origin_keeps_fragment_witness :
    get_relative_url "https://example.com/page#sec" "https://example.com"
      = urlunparse_rel (urlparse "https://example.com/page#sec") ∧
    ((urlparse "https://example.com/page#sec").fragment ≠ "" →
      ∃ s, get_relative_url "https://example.com/page#sec" "https://example.com"
        = s ++ "#" ++ (urlparse "https://example.com/page#sec").fragment) :=
  relative_url_strips_origin_keeps_fragment
    "https://example.com/page#sec" "https://example.com" (by decide)

/- ### C8 — hidden-image filtering -/

/-- C8 counterexample: an image whose inline style is the spaceless
`display:none` is treated as visible and does contribute an ImageRecord,
because the visibility check only matches the spaced substring
`'display: none'`. -/
theorem display_none_without_space_not_filtered :
    is_image_visible noSpaceHiddenImg = true ∧
    ((pageImages hiddenImgEnv "https://example.com/" "https://example.com"
        [noSpaceHiddenImg] [] emptyImagesData) "https://example.com/pic.png").count = 1 := by
  constructor <;> decide

/-- C8 (amended): the extractor rejects an image whose combined element and
parent inline style contains one of the literal lower-case substrings
`'display: none'`, `'visibility: hidden'`, `'opacity: 0'` (with the space
after the colon), or that carries `aria-hidden="true"` or the HTML `hidden`
attribute on the element or its parent; a rejected image contributes no
sighting to `images_data`.  Styles written without the space, such as
`display:none`, are not matched. -/
theorem hidden_marker_images_rejected :
    (∀ img : ImgNode,
      (strContains (strLower (img.style
          ++ (match img.parent with | some p => p.style | none => ""))) "display: none" = true ∨
       strContains (strLower (img.style
          ++ (match img.parent with | some p => p.style | none => ""))) "visibility: hidden" = true ∨
       strContains (strLower (img.style
          ++ (match img.parent with | some p => p.style | none => ""))) "opacity: 0" = true ∨
       img.ariaHidden = some "true" ∨
       (∃ p, img.parent = some p ∧ p.ariaHidden = some "true") ∨
       img.hiddenAttr = true ∨
       (∃ p, img.parent = some p ∧ p.hiddenAttr = true)) →
      is_image_visible img = false) ∧
    (∀ (env : PageEnv) (pu dom : String) (img : ImgNode) (rest : List ImgNode)
        (seen : List String) (data : ImagesData),
      is_image_visible img = false →
      pageImages env pu dom (img :: rest) seen data = pageImages env pu dom rest seen data) := by
  constructor
  · intro img h
    unfold is_image_visible
    by_cases h1 : (["display: none", "visibility: hidden", "opacity: 0"].any
        (fun pat => strContains (strLower (img.style
          ++ (match img.parent with | some p => p.style | none => ""))) pat)) = true
    · simp [h1]
    · rw [if_neg h1]
      by_cases h2 : (img.ariaHidden == some "true"
          || (match img.parent with | some p => p.ariaHidden == some "true" | none => false)) = true
      · simp [h2]
      · rw [if_neg h2]
        by_cases h3 : (img.hiddenAttr
            || (match img.parent with | some p => p.hiddenAttr | none => false)) = true
        · simp [h3]
        · exfalso
          rcases h with hs | hs | hs | hs | ⟨p, hp, hpa⟩ | hs | ⟨p, hp, hpa⟩
          · exact h1 (by rw [List.any_eq_true]; exact ⟨"display: none", by simp, hs⟩)
          · exact h1 (by rw [List.any_eq_true]; exact ⟨"visibility: hidden", by simp, hs⟩)
          · exact h1 (by rw [List.any_eq_true]; exact ⟨"opacity: 0", by simp, hs⟩)
          · exact h2 (by simp [hs])
          · exact h2 (by simp [hp, hpa])
          · exact h3 (by simp [hs])
          · exact h3 (by simp [hp, hpa])
  · intro env pu dom img rest seen data h
    cases hsrc : img.src with
    | none => simp [pageImages, hsrc]
    | some src =>
      by_cases hempty : src = ""
      · simp [pageImages, hsrc, hempty]
      · simp [pageImages, hsrc, hempty, h]

/-- C8 witness: the amended theorem at a `display: none` (spaced) image. -/
theorem hidden_marker_images_rejected_witness :
    is_image_visible spacedHiddenImg = false ∧
    pageImages hiddenImgEnv "https://example.com/" "https://example.com"
        [spacedHiddenImg] [] emptyImagesData
      = pageImages hiddenImgEnv "https://example.com/" "https://example.com"
        [] [] emptyImagesData :=
  ⟨hidden_marker_images_rejected.1 spacedHiddenImg (Or.inl (by decide)),
   hidden_marker_images_rejected.2 hiddenImgEnv "https://example.com/" "https://example.com"
     spacedHiddenImg [] [] emptyImagesData
     (hidden_marker_images_rejected.1 spacedHiddenImg (Or.inl (by decide)))⟩

/- ### C9 — sitemap error paths return the empty set -/

/-- C9: a raised request error, a non-200 status (including 403), or a 200
body with no sitemap-index tag, no urlset tag and no leading XML declaration
each make `parse_sitemap` return the empty set for that node; the function is
total, so no exception reaches the caller. -/
theorem sitemap_error_nodes_yield_empty (env : SitemapEnv) (url : String) (d : Nat) :
    (env.fetch url = SitemapFetch.err → parse_sitemap env url d = ∅) ∧
    (∀ (s : Nat) (c : SitemapContent),
      env.fetch url = SitemapFetch.resp s c → s ≠ 200 → parse_sitemap env url d = ∅) ∧
    (∀ c : SitemapContent,
      env.fetch url = SitemapFetch.resp 200 c → c.hasIndexTag = false →
      c.hasUrlsetTag = false → c.leadingXmlDecl = false → parse_sitemap env url d = ∅) := by
  match d with
  | 0 =>
    refine ⟨fun _ => ?_, fun _ _ _ _ => ?_, fun _ _ _ _ _ => ?_⟩ <;> simp [parse_sitemap]
  | d + 1 =>
    refine ⟨fun h => ?_, fun s c h hs => ?_, fun c h hi hu _ => ?_⟩
    · simp [parse_sitemap, h]
    · by_cases h403 : s = 403
      · simp [parse_sitemap, h, h403]
      · simp [parse_sitemap, h, h403, hs]
    · simp [parse_sitemap, h, hi, hu]

/-- C9 witness: the theorem applied to the concrete environment whose sitemap
URL answers 403 and whose other URLs answer 200 with a non-XML body. -/
theorem sitemap_error_nodes_yield_empty_witness :
    parse_sitemap errEnv "https://err.example/sitemap.xml" 3 = ∅ ∧
    parse_sitemap errEnv "https://err.example/other" 3 = ∅ :=
  ⟨(sitemap_error_nodes_yield_empty errEnv "https://err.example/sitemap.xml" 3).2.1
      403 plainBody rfl (by decide),
   (sitemap_error_nodes_yield_empty errEnv "https://err.example/other" 3).2.2
      plainBody rfl rfl rfl rfl⟩

/- ### C3 — self-referential sitemap index terminates -/

/-- C3: for a sitemap index that points only to itself, each recursive call
decrements the depth budget, recursion stops when the budget reaches 0, and
with the default budget 3 the resolution returns the (finite) empty set. -/
theorem self_referential_sitemap_terminates (env : SitemapEnv) (url : String)
    (c : SitemapContent) (hf : env.fetch url = SitemapFetch.resp 200 c)
    (hi : c.hasIndexTag = true) (hx : c.xmlOk = true) (hc : c.children = [url]) :
    parse_sitemap env url 0 = ∅ ∧
    (∀ d, parse_sitemap env url (d + 1) = parse_sitemap env url d) ∧
    parse_sitemap env url 3 = ∅ := by
  have h0 : parse_sitemap env url 0 = ∅ := by simp [parse_sitemap]
  have hstep : ∀ d, parse_sitemap env url (d + 1) = parse_sitemap env url d := by
    intro d
    conv_lhs => rw [parse_sitemap]
    simp [hf, hi, hx, hc, parseChildren]
  exact ⟨h0, hstep, by rw [hstep 2, hstep 1, hstep 0, h0]⟩

/-- C3 witness: the theorem at the concrete self-referential environment. -/
theorem self_referential_sitemap_terminates_witness :
    parse_sitemap selfEnv selfSitemapUrl 3 = ∅ ∧
    parse_sitemap selfEnv selfSitemapUrl 0 = ∅ :=
  ⟨(self_referential_sitemap_terminates selfEnv selfSitemapUrl
      ⟨true, false, true, [selfSitemapUrl], [], true⟩ rfl rfl rfl rfl).2.2,
   (self_referential_sitemap_terminates selfEnv selfSitemapUrl
      ⟨true, false, true, [selfSitemapUrl], [], true⟩ rfl rfl rfl rfl).1⟩

/- ### C4 — the 50,000-URL cap -/

/-- The URL naming scheme of the oversized sitemap is injective. -/
theorem capUrl_injective : Function.Injective capUrl := by
  intro i j h
  have hl := congrArg (fun s => s.data.length) h
  simpa [capUrl] using hl

/-- The oversized urlset lists pairwise distinct URLs. -/
theorem capLocs_nodup : capLocs.Nodup :=
  (List.nodup_range 50001).map capUrl_injective

/-- The oversized urlset yields 50,001 URLs. -/
theorem capLocs_card : capLocs.toFinset.card = 50001 := by
  rw [List.toFinset_card_of_nodup capLocs_nodup]
  simp [capLocs]

/-- The extra URL of the second nested urlset is not among the 50,001. -/
theorem z_not_mem_capLocs : "z" ∉ capLocs.toFinset := by
  simp only [List.mem_toFinset, capLocs, List.mem_map, List.mem_range]
  rintro ⟨i, -, h⟩
  have hl := congrArg (fun s => s.data.length) h
  simp only [capUrl] at hl
  have hi : i = 1 := by simpa using hl
  subst hi
  exact absurd h (by decide)

/-- Resolving the oversized nested urlset. -/
theorem parse_capEnv_big :
    parse_sitemap capEnv "https://cap.example/big.xml" 2 = capLocs.toFinset := by
  have hf : capEnv.fetch "https://cap.example/big.xml"
      = .resp 200 ⟨false, true, true, [], capLocs, true⟩ := rfl
  have hh : capEnv.isHtml = fun _ => true := rfl
  rw [parse_sitemap]
  simp [hf, hh, List.filter_true]

/-- Resolving the one-URL nested urlset. -/
theorem parse_capEnv_small :
    parse_sitemap capEnv "https://cap.example/small.xml" 2 = {"z"} := by
  have hf : capEnv.fetch "https://cap.example/small.xml"
      = .resp 200 ⟨false, true, true, [], ["z"], true⟩ := rfl
  have hh : capEnv.isHtml = fun _ => true := rfl
  rw [parse_sitemap]
  simp [hf, hh, List.filter_true]

/-- C4 counterexample: after the first nested urlset the accumulated set
already holds 50,001 URLs (beyond the 50,000 cap), yet the child loop still
recurses into the second nested sitemap and collects its URL `"z"`; `"z"`
also reaches the final result of the top-level resolution. -/
theorem sitemap_cap_exceeded_recursion_continues :
    50000 < (parseChildren capEnv 2 ["https://cap.example/big.xml"] ∅).card ∧
    "z" ∉ parseChildren capEnv 2 ["https://cap.example/big.xml"] ∅ ∧
    "z" ∈ parseChildren capEnv 2
        ["https://cap.example/big.xml", "https://cap.example/small.xml"] ∅ ∧
    "z" ∈ parse_sitemap capEnv "https://cap.example/sitemap.xml" 3 := by
  have hA : parseChildren capEnv 2 ["https://cap.example/big.xml"] ∅ = capLocs.toFinset := by
    rw [parseChildren, parseChildren]
    simp [parse_capEnv_big]
  have hAB : parseChildren capEnv 2
      ["https://cap.example/big.xml", "https://cap.example/small.xml"] ∅
      = capLocs.toFinset ∪ {"z"} := by
    rw [parseChildren, parseChildren, parseChildren]
    simp [parse_capEnv_big, parse_capEnv_small]
  have hidx : parse_sitemap capEnv "https://cap.example/sitemap.xml" 3
      = capLocs.toFinset ∪ {"z"} := by
    have hf : capEnv.fetch "https://cap.example/sitemap.xml"
        = .resp 200 ⟨true, false, true,
            ["https://cap.example/big.xml", "https://cap.example/small.xml"], [], true⟩ := rfl
    rw [parse_sitemap]
    simp only [hf]
    rw [← hAB]
    simp
  refine ⟨?_, ?_, ?_, ?_⟩
  · rw [hA, capLocs_card]; decide
  · rw [hA]; exact z_not_mem_capLocs
  · rw [hAB]; exact Finset.mem_union_right _ (Finset.mem_singleton_self _)
  · rw [hidx]; exact Finset.mem_union_right _ (Finset.mem_singleton_self _)

/-- Child-loop half of the cap-inertness proof: if the two resolvers agree at
depth `d`, the two child loops agree at depth `d`. -/
theorem parseChildren_eq_noCap (env : SitemapEnv) (d : Nat)
    (h : ∀ url, parse_sitemap env url d = parse_sitemap_noCap env url d) :
    ∀ (cs : List String) (acc : Finset String),
      parseChildren env d cs acc = parseChildrenNoCap env d cs acc := by
  intro cs
  induction cs with
  | nil => intro acc; rw [parseChildren, parseChildrenNoCap]
  | cons ch rest ih =>
    intro acc
    rw [parseChildren, parseChildrenNoCap, h ch]
    exact ih _

/-- The `len(urls) > 50_000` disjunct of the recursion guard tests a freshly
created empty set, so removing it does not change the resolver. -/
theorem parse_sitemap_eq_noCap :
    ∀ (d : Nat) (env : SitemapEnv) (url : String),
      parse_sitemap env url d = parse_sitemap_noCap env url d := by
  intro d
  induction d with
  | zero => intro env url; simp [parse_sitemap, parse_sitemap_noCap]
  | succ n ih =>
    intro env url
    rw [parse_sitemap, parse_sitemap_noCap]
    simp only [Finset.card_empty, Nat.succ_ne_zero, false_or]
    have hcap : ¬ (50000 < 0) := by decide
    rw [if_neg hcap]
    simp only [if_false]
    cases hf : env.fetch url with
    | err => rfl
    | resp s c =>
      by_cases h403 : s = 403
      · simp [h403]
      · by_cases h200 : s = 200
        · subst h200
          simp only [if_neg h403, ite_not, if_neg (by trivial : ¬ (200 : Nat) ≠ 200)]
          by_cases hidx : c.hasIndexTag = true
          · by_cases hxml : c.xmlOk = true
            · simp [hidx, hxml, parseChildren_eq_noCap env n (fun u => ih env u)]
            · simp [hidx, hxml]
          · simp [hidx]
        · simp [h403, h200]

/-- C4 (amended): the cap check compares the size of a just-initialised empty
set and therefore never stops recursion; only the depth budget bounds the
resolution, which returns the empty set once the budget reaches 0. -/
theorem sitemap_depth_budget_only :
    (∀ (env : SitemapEnv) (url : String) (d : Nat),
      parse_sitemap env url d = parse_sitemap_noCap env url d) ∧
    (∀ (env : SitemapEnv) (url : String), parse_sitemap env url 0 = ∅) :=
  ⟨fun env url d => parse_sitemap_eq_noCap d env url,
   fun env url => by simp [parse_sitemap]⟩

/- ### C5 — same-origin scoping of the fallback crawler -/

/-- Every link the crawler enqueues has the seed's netloc. -/
theorem linkTargets_netloc (pageUrl seed : String) (visited : List String)
    (hrefs : List String) :
    ∀ u ∈ linkTargets pageUrl seed visited hrefs, netlocOf u = netlocOf seed := by
  intro u hu
  unfold linkTargets at hu
  rcases List.mem_filter.mp hu with ⟨-, hp⟩
  simp only [Bool.and_eq_true, decide_eq_true_eq] at hp
  exact hp.1.2

/-- Netloc invariant of the crawl loop: if every frontier URL is the seed or
shares its netloc, and likewise every crawled URL, the property is preserved
by any number of loop iterations. -/
theorem crawl_loop_netloc_inv (env : String → CrawlFetch) (seed : String) (mp : Nat) :
    ∀ (fuel : Nat) (s : CrawlState),
      (∀ u ∈ s.urlsToVisit, u = seed ∨ netlocOf u = netlocOf seed) →
      (∀ u ∈ s.crawledUrls, u = seed ∨ netlocOf u = netlocOf seed) →
      (∀ u ∈ (crawl_loop env seed mp fuel s).urlsToVisit,
        u = seed ∨ netlocOf u = netlocOf seed) ∧
      (∀ u ∈ (crawl_loop env seed mp fuel s).crawledUrls,
        u = seed ∨ netlocOf u = netlocOf seed) := by
  intro fuel
  induction fuel with
  | zero => intro s h1 h2; exact ⟨h1, h2⟩
  | succ n ih =>
    intro s h1 h2
    obtain ⟨v, tv, cr, ce, th⟩ := s
    cases tv with
    | nil => exact ⟨h1, h2⟩
    | cons url rest =>
      have h1rest : ∀ u ∈ rest, u = seed ∨ netlocOf u = netlocOf seed :=
        fun u hu => h1 u (List.mem_cons_of_mem _ hu)
      simp only [crawl_loop]
      by_cases hfull : ¬ cr.length < mp
      · rw [if_pos hfull]; exact ⟨h1, h2⟩
      · rw [if_neg hfull]
        by_cases hvis : url ∈ v
        · rw [if_pos hvis]
          exact ih _ h1rest h2
        · rw [if_neg hvis]
          cases henv : env url with
          | failure => exact ih _ h1rest h2
          | resp ct hrefs =>
            simp only []
            by_cases hct : ¬ strContains (strLower ct) "text/html" = true
            · rw [if_pos hct]
              exact ih _ h1rest h2
            · rw [if_neg hct]
              apply ih
              · intro u hu
                rcases List.mem_append.mp hu with hl | hr
                · exact h1rest u hl
                · exact Or.inr (linkTargets_netloc _ _ _ _ u hr)
              · intro u hu
                rcases List.mem_insert_iff.mp hu with rfl | hmem
                · exact h1 u (List.mem_cons_self _ _)
                · exact h2 u hmem

/-- C5 counterexample: from the `https` seed, an absolute `http` link on the
same host is enqueued and ends up in the crawled set, so the crawl is scoped
by netloc only, not by scheme-and-host origin. -/
theorem cross_scheme_url_crawled :
    "http://example.com/plain"
        ∈ (crawl_loop mixedSchemeEnv "https://example.com/" 100 5
            (initCrawl "https://example.com/" 0)).crawledUrls ∧
    schemeOf "http://example.com/plain" ≠ schemeOf "https://example.com/" ∧
    netlocOf "http://example.com/plain" = netlocOf "https://example.com/" := by
  refine ⟨?_, ?_, ?_⟩ <;> decide

/-- C5 (amended): starting from the seed, every URL in the crawled set and
every URL in the frontier of any reachable crawl state is the seed itself or
has the seed's netloc (host); the scheme is not constrained. -/
theorem crawl_stays_on_seed_netloc (env : String → CrawlFetch) (seed : String)
    (mp fuel throttle0 : Nat) :
    (∀ u ∈ (crawl_loop env seed mp fuel (initCrawl seed throttle0)).crawledUrls,
      u = seed ∨ netlocOf u = netlocOf seed) ∧
    (∀ u ∈ (crawl_loop env seed mp fuel (initCrawl seed throttle0)).urlsToVisit,
      u = seed ∨ netlocOf u = netlocOf seed) := by
  have h := crawl_loop_netloc_inv env seed mp fuel (initCrawl seed throttle0)
    (by intro u hu; simp [initCrawl] at hu; exact Or.inl hu)
    (by intro u hu; simp [initCrawl] at hu)
  exact ⟨h.2, h.1⟩

/-- C5 witness: the amended theorem at the mixed-scheme run. -/
theorem crawl_stays_on_seed_netloc_witness :
    "http://example.com/plain" = "https://example.com/" ∨
    netlocOf "http://example.com/plain" = netlocOf "https://example.com/" :=
  (crawl_stays_on_seed_netloc mixedSchemeEnv "https://example.com/" 100 5 0).1
    "http://example.com/plain" (by decide)

/- ### C6 — auto-throttle behaviour -/

/-- Throttle bound invariant: a crawl whose throttle is at most 10 keeps it
at most 10 through any number of loop iterations, because every increase is
`min(throttle + 1, 10)`. -/
theorem crawl_loop_throttle_le (env : String → CrawlFetch) (seed : String) (mp : Nat) :
    ∀ (fuel : Nat) (s : CrawlState),
      s.throttle ≤ 10 → (crawl_loop env seed mp fuel s).throttle ≤ 10 := by
  intro fuel
  induction fuel with
  | zero => intro s h; exact h
  | succ n ih =>
    intro s h
    obtain ⟨v, tv, cr, ce, th⟩ := s
    cases tv with
    | nil => exact h
    | cons url rest =>
      simp only [crawl_loop]
      by_cases hfull : ¬ cr.length < mp
      · rw [if_pos hfull]; exact h
      · rw [if_neg hfull]
        by_cases hvis : url ∈ v
        · rw [if_pos hvis]; exact ih _ h
        · rw [if_neg hvis]
          cases henv : env url with
          | failure =>
            apply ih
            by_cases htrig : 5 < ce + 1
            · simp only [if_pos htrig]
              exact Nat.min_le_right _ _
            · simp only [if_neg htrig]
              exact h
          | resp ct hrefs =>
            simp only []
            by_cases hct : ¬ strContains (strLower ct) "text/html" = true
            · rw [if_pos hct]; exact ih _ h
            · rw [if_neg hct]; exact ih _ h

/-- C6 counterexample: in the all-failures run, the iteration that raises the
throttle from 0 to 1 (the sixth consecutive failure) leaves the consecutive
error counter at 6 instead of resetting the trigger, and the very next
failure raises the throttle again to 2. -/
theorem throttle_increase_without_trigger_reset :
    (crawl_loop throttleEnv "https://example.com/" 100 6
        (initCrawl "https://example.com/" 0)).throttle = 0 ∧
    (crawl_loop throttleEnv "https://example.com/" 100 7
        (initCrawl "https://example.com/" 0)).throttle = 1 ∧
    (crawl_loop throttleEnv "https://example.com/" 100 7
        (initCrawl "https://example.com/" 0)).consecutiveErrors = 6 ∧
    (crawl_loop throttleEnv "https://example.com/" 100 8
        (initCrawl "https://example.com/" 0)).throttle = 2 := by
  refine ⟨?_, ?_, ?_, ?_⟩ <;> decide

/-- C6 (amended): after 6 consecutive fetch failures from throttle 0 the
delay becomes 1, but the trigger is not reset — every further consecutive
failure raises the delay by 1 again; the counter resets to 0 on a successful
HTML fetch; and the throttle never exceeds 10 in any reachable state whose
starting value is at most 10. -/
theorem auto_throttle_additive_no_reset :
    (∀ (env : String → CrawlFetch) (seed : String) (mp fuel : Nat) (s : CrawlState),
      s.throttle ≤ 10 → (crawl_loop env seed mp fuel s).throttle ≤ 10) ∧
    (crawl_loop throttleEnv "https://example.com/" 100 7
        (initCrawl "https://example.com/" 0)).throttle = 1 ∧
    (crawl_loop throttleEnv "https://example.com/" 100 8
        (initCrawl "https://example.com/" 0)).throttle = 2 ∧
    (∀ (env : String → CrawlFetch) (seed : String) (mp : Nat) (s : CrawlState)
        (url : String) (rest : List String) (ct : String) (hrefs : List String),
      s.urlsToVisit = url :: rest → s.crawledUrls.length < mp → url ∉ s.visited →
      env url = CrawlFetch.resp ct hrefs → strContains (strLower ct) "text/html" = true →
      (crawl_loop env seed mp 1 s).consecutiveErrors = 0) := by
  refine ⟨crawl_loop_throttle_le, by decide, by decide, ?_⟩
  intro env seed mp s url rest ct hrefs hfront hcard hvis henv hct
  obtain ⟨v, tv, cr, ce, th⟩ := s
  simp only at hfront hcard hvis
  subst hfront
  simp only [crawl_loop]
  rw [if_neg (not_not_intro hcard), if_neg hvis, henv]
  simp only []
  rw [if_neg (not_not_intro hct)]

/-- C6 witness: the amended theorem's bound and reset parts at concrete
runs. -/
theorem auto_throttle_additive_no_reset_witness :
    (crawl_loop throttleEnv "https://example.com/" 100 8
        (initCrawl "https://example.com/" 0)).throttle ≤ 10 ∧
    (crawl_loop mixedSchemeEnv "https://example.com/" 100 1
        (initCrawl "https://example.com/" 0)).consecutiveErrors = 0 :=
  ⟨auto_throttle_additive_no_reset.1 throttleEnv "https://example.com/" 100 8
      (initCrawl "https://example.com/" 0) (by decide),
   auto_throttle_additive_no_reset.2.2.2 mixedSchemeEnv "https://example.com/" 100
      (initCrawl "https://example.com/" 0) "https://example.com/"
      [] "text/html" ["http://example.com/plain"] rfl (by decide) (by decide) rfl
      (by decide)⟩

/- ### C7 — aggregator: last-write-wins metadata and duplicate-free sources -/

/-- `process_image` preserves duplicate-freeness of every record's
`source_urls`, because the page's relative URL is appended only when it is
not already present. -/
theorem process_image_nodup_sources (iu : String) (img : ImgNode) (pu dom : String)
    (sz : Nat) (data : ImagesData) (h : ∀ k, (data k).source_urls.Nodup) :
    ∀ k, ((process_image iu img pu dom sz data) k).source_urls.Nodup := by
  intro k
  by_cases hk : k = iu
  · subst hk
    unfold process_image
    simp only [eq_self_iff_true, if_true]
    by_cases hmem : get_relative_url pu dom ∈ (data k).source_urls
    · simp only [if_pos hmem]
      exact h k
    · simp only [if_neg hmem]
      rw [List.nodup_append]
      refine ⟨h k, List.nodup_singleton _, ?_⟩
      intro x hx hx'
      rw [List.mem_singleton] at hx'
      subst hx'
      exact hmem hx
  · unfold process_image
    simp only [if_neg hk]
    exact h k

/-- Folding any sighting list through the aggregator preserves the
duplicate-freeness of each record's `source_urls`. -/
theorem aggregate_nodup_sources :
    ∀ (sightings : List Sighting) (data : ImagesData),
      (∀ k, (data k).source_urls.Nodup) →
      ∀ k, ((aggregate sightings data) k).source_urls.Nodup := by
  intro sightings
  induction sightings with
  | nil => intro data h k; exact h k
  | cons s rest ih =>
    intro data h k
    exact ih _ (process_image_nodup_sources s.img_url s.img s.page_url s.domain s.size
      data h) k

/-- C7: each sighting of an image URL bumps that record's count by exactly 1
and overwrites the alt-text, title, longdesc, aria-label and
aria-describedby text with the values of that sighting (last-write-wins);
and for any sequence of sightings folded from the empty mapping, no record's
`source_urls` contains a duplicate entry. -/
theorem aggregator_last_write_wins_and_nodup_sources :
    (∀ (iu : String) (img : ImgNode) (pu dom : String) (sz : Nat) (data : ImagesData),
      ((process_image iu img pu dom sz data) iu).count = (data iu).count + 1 ∧
      ((process_image iu img pu dom sz data) iu).alt_text = img.alt ∧
      ((process_image iu img pu dom sz data) iu).title = img.title ∧
      ((process_image iu img pu dom sz data) iu).longdesc = img.longdesc ∧
      ((process_image iu img pu dom sz data) iu).aria_label = img.ariaLabel ∧
      ((process_image iu img pu dom sz data) iu).aria_describedby = resolveDescribed img) ∧
    (∀ (sightings : List Sighting) (k : String),
      ((aggregate sightings emptyImagesData) k).source_urls.Nodup) := by
  constructor
  · intro iu img pu dom sz data
    unfold process_image
    simp only [eq_self_iff_true, if_true]
    by_cases hmem : get_relative_url pu dom ∈ (data iu).source_urls
    · simp [hmem]
    · simp [hmem]
  · intro sightings k
    exact aggregate_nodup_sources sightings emptyImagesData
      (fun _ => List.nodup_nil) k
